import Mathlib

/-!
Verification of the multi-statement SQL execution pipeline of
`src/sse_mcp/operatemysql.py` (the `ALLOW_METHODS` configuration, the
`my_check` security gate, the statement splitter inside `execute_sql`,
the per-statement execution loop, and the result formatter).

The database driver is abstracted as a function from a statement string to a
`DriverResult` (a described result set, a mutation with a row count, or a
driver error, i.e. a `mysql.connector.Error`).  The executor is embedded as a
function returning the list of formatted per-statement outcomes together with
an event trace recording driver executions, commits and rollbacks, and an
`Except` layer recording which Python exceptions escape the function.  A
crucial point of the embedding: inside the per-statement loop the code does
`raise ValueError(error_msg)` for a security rejection, but the surrounding
handlers are `except Error` (the mysql error class), which does not catch
`ValueError`; the embedding therefore lets the `ValueError` escape.
-/

namespace OperateMysql

/-- Python membership test `c in s` for a character in a string. -/
def pyContains (s : String) (c : Char) : Bool :=
  s.toList.contains c

/-- Python `s.split(sep)` semantics for a one-character separator, on the
character list: no collapsing of adjacent separators, and the empty input
yields one empty piece. -/
def splitOnCharList (sep : Char) : List Char → List (List Char)
  | [] => [[]]
  | c :: cs =>
    match splitOnCharList sep cs with
    | [] => [[]]
    | piece :: rest =>
      if c = sep then [] :: piece :: rest else (c :: piece) :: rest

/-- Python `s.split(sep)` for a one-character separator. -/
def pySplit (s : String) (sep : Char) : List String :=
  (splitOnCharList sep s.toList).map (fun l => String.mk l)

/-- The ASCII whitespace characters stripped by Python `str.strip()`
(the embedding restricts `strip` to the ASCII range, which covers every
character the pipeline manipulates). -/
def isPySpace (c : Char) : Bool :=
  c = ' ' || c = '\t' || c = '\n' || c = '\r' || c = '\x0b' || c = '\x0c'

/-- Python `s.strip()`. -/
def pyStrip (s : String) : String :=
  String.mk (((s.toList.dropWhile isPySpace).reverse.dropWhile isPySpace).reverse)

/-- Python `s.lower()` (ASCII case mapping, which covers the SQL verbs). -/
def pyLower (s : String) : String :=
  String.mk (s.toList.map Char.toLower)

/-- The fallback allow-list setting used when the `ALLOW_METHODS` environment
variable is unset or empty: the string `"select,update,show"`. -/
def defaultAllowSetting : String := "select,update,show"

/-- `ALLOW_METHODS = (os.getenv("ALLOW_METHODS") or "select,update,show").split(',')`,
as a function of the environment value (`none` models an unset variable; the
Python `or` treats the empty string as falsy). -/
def ALLOW_METHODS (env : Option String) : List String :=
  pySplit
    (match env with
      | none => defaultAllowSetting
      | some v => if v = "" then defaultAllowSetting else v)
    ','

/-- A single-quote character, used by the Python `repr` of a string. -/
def sq : String := String.singleton (Char.ofNat 39)

/-- The Python `repr` of a list of strings, as produced when an f-string
interpolates `ALLOW_METHODS`. -/
def pyListRepr (l : List String) : String :=
  "[" ++ String.intercalate ", " (l.map (fun s => sq ++ s ++ sq)) ++ "]"

/-- The rejection message of `my_check` for a statement containing a
semicolon. -/
def forbidMultiMsg : String := "【内部安全检查】禁止一次执行多条"

/-- The rejection message of `my_check` for a disallowed leading verb:
`f"【内部安全检查】不允许的操作：{cmd}, 目前允许{ALLOW_METHODS}"`. -/
def notAllowedMsg (cmd : String) (allow : List String) : String :=
  "【内部安全检查】不允许的操作：" ++ cmd ++ ", 目前允许" ++ pyListRepr allow

/-- The verb branch of `my_check`:
`cmd = statement.split(' ')[0].lower()` followed by the allow-list test. -/
def my_verb_check (allow : List String) (statement : String) : String :=
  let cmd := pyLower ((pySplit statement ' ').headD "")
  if allow.contains cmd then "" else notAllowedMsg cmd allow

/-- `my_check(statement)` from the source, parametrised by the global
`ALLOW_METHODS` list: reject on any embedded semicolon, otherwise check the
first space-delimited token against the allow-list; the empty string means
the statement is accepted. -/
def my_check (allow : List String) (statement : String) : String :=
  if pyContains statement ';' then forbidMultiMsg
  else my_verb_check allow statement

/-- The statement splitter inside `execute_sql`:
`[stmt.strip() for stmt in query.split(';') if stmt.strip()]`. -/
def splitStatements (query : String) : List String :=
  (pySplit query ';').filterMap (fun stmt =>
    if pyStrip stmt = "" then none else some (pyStrip stmt))

/-- What the driver reports for one executed statement: a described result
set with columns and rows (a row cell is `none` for SQL `NULL`, otherwise
`some` of its `str()` rendering), a mutation with `cursor.rowcount`, or a
raised `mysql.connector.Error` with its message. -/
inductive DriverResult where
  | resultSet (columns : List String) (rows : List (List (Option String)))
  | mutation (rowcount : Int)
  | error (msg : String)
deriving DecidableEq

/-- Observable driver-side events of one `execute_sql` call: a successful
`cursor.execute`, a `conn.commit()`, a failed `cursor.execute`, and a
rollback (present in the vocabulary so that its absence is provable; the
source never rolls back). -/
inductive Event where
  | executed (stmt : String)
  | committed
  | failed (stmt : String)
  | rolledBack
deriving DecidableEq

/-- A Python exception escaping `execute_sql`.  Only `ValueError` can: the
driver errors are caught by the `except Error` handlers. -/
inductive PyExc where
  | valueError (msg : String)
deriving DecidableEq

/-- One cell of a fetched row as formatted by the source:
`"NULL" if value is None else str(value)`. -/
def renderCell (v : Option String) : String :=
  match v with
  | none => "NULL"
  | some s => s

/-- The `formatted_rows` accumulation loop of the source: for each row,
append the comma-join of its formatted cells. -/
def formatted_rows (rows : List (List (Option String))) : List String :=
  rows.foldl (fun acc row => acc ++ [String.intercalate "," (row.map renderCell)]) []

/-- `"\n".join([",".join(columns)] + formatted_rows)`. -/
def formatResultSet (columns : List String) (rows : List (List (Option String))) : String :=
  String.intercalate "\n" (String.intercalate "," columns :: formatted_rows rows)

/-- The mutation outcome line `f"查询执行成功。影响行数: {cursor.rowcount}"`. -/
def mutationLine (rowcount : Int) : String :=
  "查询执行成功。影响行数: " ++ toString rowcount

/-- The per-statement error line
`f"执行语句 '{statement}' 出错: {str(stmt_error)}"`. -/
def errorLine (stmt msg : String) : String :=
  "执行语句 " ++ sq ++ stmt ++ sq ++ " 出错: " ++ msg

/-- The top-level connection-error line `f"执行查询时出错: {str(e)}"`. -/
def connFailLine (e : String) : String := "执行查询时出错: " ++ e

/-- The per-statement loop of `execute_sql`.  For each statement: run
`my_check`; a nonempty answer is raised as `ValueError`, which the
`except Error` handlers do not catch, so it aborts the whole call (the
results accumulated so far are lost, the events already performed remain).
Otherwise execute the statement: a described result set is formatted with no
commit; a mutation commits and records the row count; a driver error is
caught locally, recorded, and the loop continues. -/
def runStatements (allow : List String) (driver : String → DriverResult) :
    List String → Except PyExc (List String) × List Event
  | [] => (Except.ok [], [])
  | stmt :: rest =>
    if my_check allow stmt ≠ "" then
      (Except.error (PyExc.valueError (my_check allow stmt)), [])
    else
      match driver stmt with
      | DriverResult.resultSet cols rows =>
        let r := runStatements allow driver rest
        (r.1.map (fun l => formatResultSet cols rows :: l), Event.executed stmt :: r.2)
      | DriverResult.mutation n =>
        let r := runStatements allow driver rest
        (r.1.map (fun l => mutationLine n :: l),
          Event.executed stmt :: Event.committed :: r.2)
      | DriverResult.error m =>
        let r := runStatements allow driver rest
        (r.1.map (fun l => errorLine stmt m :: l), Event.failed stmt :: r.2)

/-- `execute_sql(query)`: on a connection failure the outer `except Error`
returns the single top-level error text; otherwise split the query, run the
loop, and join the outcomes with `"\n---\n"` into one text content.  The
first component is the value returned to the caller (or the escaping
exception); the second is the driver event trace. -/
def execute_sql (allow : List String) (conn : Except String (String → DriverResult))
    (query : String) : Except PyExc (List String) × List Event :=
  match conn with
  | Except.error e => (Except.ok [connFailLine e], [])
  | Except.ok driver =>
    let r := runStatements allow driver (splitStatements query)
    (r.1.map (fun results => [String.intercalate "\n---\n" results]), r.2)

/-- The outcome text the loop records for one accepted statement, as a
function of what the driver reports. -/
def renderStmt (driver : String → DriverResult) (s : String) : String :=
  match driver s with
  | DriverResult.resultSet cols rows => formatResultSet cols rows
  | DriverResult.mutation n => mutationLine n
  | DriverResult.error m => errorLine s m

/-- The driver events the loop performs for one accepted statement. -/
def eventsFor (driver : String → DriverResult) (s : String) : List Event :=
  match driver s with
  | DriverResult.resultSet _ _ => [Event.executed s]
  | DriverResult.mutation _ => [Event.executed s, Event.committed]
  | DriverResult.error _ => [Event.failed s]

/-- The first whitespace-delimited token of a statement, in the sense of the
specification text (any ASCII whitespace delimits). -/
def firstWhitespaceToken (s : String) : String :=
  String.mk ((s.toList.dropWhile isPySpace).takeWhile (fun c => !isPySpace c))

/-- The driver used for the concrete `"SELECT 1; DROP everything"` run:
`SELECT 1` yields the one-column, one-row result set `1`. -/
def demoDriverC1 : String → DriverResult :=
  fun s =>
    if s = "SELECT 1" then DriverResult.resultSet ["1"] [[some "1"]]
    else DriverResult.mutation 0

/-- Decidable equality for `Except`, so concrete runs of the executor can be
checked by evaluation. -/
instance {ε α : Type} [DecidableEq ε] [DecidableEq α] : DecidableEq (Except ε α) := fun a b =>
  match a, b with
  | Except.ok x, Except.ok y =>
    if h : x = y then isTrue (h ▸ rfl) else isFalse (fun hc => h (Except.ok.inj hc))
  | Except.error x, Except.error y =>
    if h : x = y then isTrue (h ▸ rfl) else isFalse (fun hc => h (Except.error.inj hc))
  | Except.ok _, Except.error _ => isFalse (fun hc => Except.noConfusion hc)
  | Except.error _, Except.ok _ => isFalse (fun hc => Except.noConfusion hc)

/-- A concrete driver with a result-set statement, a mutation statement and a
failing statement, used to instantiate the general theorems. -/
def demoDriver : String → DriverResult :=
  fun s =>
    if s = "select 1" then DriverResult.resultSet ["a", "b"] [[some "x", none]]
    else if s = "update t" then DriverResult.mutation 2
    else if s = "update boom" then DriverResult.error "boom"
    else DriverResult.mutation 0

/-- A concrete driver that never fails: every statement is a mutation
affecting three rows. -/
def demoMutDriver : String → DriverResult :=
  fun _ => DriverResult.mutation 3

theorem runStatements_ok (allow : List String) (driver : String → DriverResult)
    (stmts : List String) (h : ∀ s ∈ stmts, my_check allow s = "") :
    runStatements allow driver stmts =
      (Except.ok (stmts.map (renderStmt driver)), stmts.flatMap (eventsFor driver)) := by
  induction stmts with
  | nil => rfl
  | cons stmt rest ih =>
    have h1 : my_check allow stmt = "" := h stmt (List.mem_cons_self _ _)
    have h2 : ∀ s ∈ rest, my_check allow s = "" :=
      fun s hs => h s (List.mem_cons_of_mem _ hs)
    simp only [runStatements, h1, ne_eq, not_true_eq_false, if_false, ih h2]
    cases hd : driver stmt <;>
      simp [renderStmt, eventsFor, hd, Except.map]

theorem formatted_rows_eq_map (rows : List (List (Option String))) :
    formatted_rows rows =
      rows.map (fun row => String.intercalate "," (row.map renderCell)) := by
  have key : ∀ (l : List (List (Option String))) (acc : List String),
      l.foldl (fun a row => a ++ [String.intercalate "," (row.map renderCell)]) acc =
        acc ++ l.map (fun row => String.intercalate "," (row.map renderCell)) := by
    intro l
    induction l with
    | nil => intro acc; simp
    | cons x xs ih => intro acc; simp [List.foldl_cons, ih]
  simpa [formatted_rows] using key rows []

theorem rolledBack_not_mem_eventsFor (driver : String → DriverResult) (s : String) :
    Event.rolledBack ∉ eventsFor driver s := by
  unfold eventsFor
  cases driver s <;> simp

theorem splitOnCharList_ne_nil (sep : Char) (l : List Char) :
    splitOnCharList sep l ≠ [] := by
  cases l with
  | nil => simp [splitOnCharList]
  | cons c cs =>
    simp only [splitOnCharList]
    cases hs : splitOnCharList sep cs with
    | nil => simp
    | cons p r => by_cases hc : c = sep <;> simp [hc]

theorem not_mem_of_mem_splitOnCharList (sep : Char) (l : List Char) :
    ∀ piece ∈ splitOnCharList sep l, sep ∉ piece := by
  induction l with
  | nil =>
    intro piece h
    simp [splitOnCharList] at h
    simp [h]
  | cons c cs ih =>
    intro piece h
    simp only [splitOnCharList] at h
    cases hs : splitOnCharList sep cs with
    | nil => exact absurd hs (splitOnCharList_ne_nil sep cs)
    | cons p r =>
      rw [hs] at h
      have hp : p ∈ splitOnCharList sep cs := by
        rw [hs]; exact List.mem_cons_self p r
      have hr : ∀ q ∈ r, q ∈ splitOnCharList sep cs := by
        intro q hq; rw [hs]; exact List.mem_cons_of_mem p hq
      by_cases hc : c = sep
      · simp [hc] at h
        rcases h with h | h | h
        · simp [h]
        · exact h ▸ ih p hp
        · exact ih piece (hr piece h)
      · simp [hc] at h
        rcases h with h | h
        · subst h
          intro hin
          rcases List.mem_cons.mp hin with h1 | h1
          · exact hc h1.symm
          · exact ih p hp h1
        · exact ih piece (hr piece h)

theorem mem_pyStrip (s : String) (c : Char) (h : c ∈ (pyStrip s).toList) :
    c ∈ s.toList := by
  have h1 : c ∈ ((s.toList.dropWhile isPySpace).reverse.dropWhile isPySpace).reverse := h
  rw [List.mem_reverse] at h1
  have h2 : c ∈ (s.toList.dropWhile isPySpace).reverse :=
    (List.dropWhile_sublist isPySpace).subset h1
  rw [List.mem_reverse] at h2
  exact (List.dropWhile_sublist isPySpace).subset h2

theorem notAllowedMsg_ne_empty (cmd : String) (allow : List String) :
    notAllowedMsg cmd allow ≠ "" := by
  intro he
  have hlen := congrArg String.length he
  rw [notAllowedMsg] at hlen
  simp only [String.length_append] at hlen
  rw [show String.length "【内部安全检查】不允许的操作：" = 15 from by decide,
    show String.length "" = 0 from by decide] at hlen
  omega

/-- C1: the claim states that when the SecurityGate rejects a statement the
rejection becomes a StatementError outcome for that statement and the batch
continues, so that `"SELECT 1; DROP everything"` under the default allow-list
yields two outcomes.  The code instead wraps the rejection in
`raise ValueError(error_msg)`, which the surrounding `except Error` handlers
(scoped to `mysql.connector.Error`) do not catch: on that very query the call
aborts with an escaping `ValueError` after the first statement has executed,
and no outcome list is returned at all. -/
theorem execute_sql_rejection_aborts_batch :
    execute_sql (ALLOW_METHODS none) (Except.ok demoDriverC1) "SELECT 1; DROP everything" =
      (Except.error (PyExc.valueError (notAllowedMsg "drop" (ALLOW_METHODS none))),
       [Event.executed "SELECT 1"]) := by
  decide

/-- C2 counterexample: the claim says the gate accepts every statement whose
first whitespace-delimited token lower-cases to an allowed verb, a tab after
the verb included.  For the semicolon-free statement `"select\t1"` that token
is `select`, a member of the default allow-list, yet `my_check` rejects the
statement, because the code splits on the ASCII space character only. -/
theorem my_check_whitespace_claim_false :
    pyContains "select\t1" ';' = false ∧
      pyLower (firstWhitespaceToken "select\t1") ∈ ALLOW_METHODS none ∧
      ¬ my_check (ALLOW_METHODS none) "select\t1" = "" := by
  decide

/-- C2 amended: for a semicolon-free statement the gate extracts the part of
the statement before the first ASCII space character (the whole statement
when it has no space; a tab or newline does not delimit), lower-cases it, and
accepts exactly when that token is in the allow-list; on rejection the
message ends with the rendered allow-list. -/
theorem my_check_space_token_spec (allow : List String) (s : String)
    (h : pyContains s ';' = false) :
    (my_check allow s = "" ↔ pyLower ((pySplit s ' ').headD "") ∈ allow) ∧
    (pyLower ((pySplit s ' ').headD "") ∉ allow →
      my_check allow s =
        "【内部安全检查】不允许的操作：" ++ pyLower ((pySplit s ' ').headD "") ++
          ", 目前允许" ++ pyListRepr allow) := by
  have hm : my_check allow s =
      (if allow.contains (pyLower ((pySplit s ' ').headD "")) then ""
       else notAllowedMsg (pyLower ((pySplit s ' ').headD "")) allow) := by
    simp [my_check, h, my_verb_check]
  by_cases hmem : pyLower ((pySplit s ' ').headD "") ∈ allow
  · have hc : allow.contains (pyLower ((pySplit s ' ').headD "")) = true :=
      (List.elem_eq_mem _ _).trans (decide_eq_true hmem)
    rw [hm, if_pos hc]
    exact ⟨iff_of_true rfl hmem, fun hn => absurd hmem hn⟩
  · have hc : allow.contains (pyLower ((pySplit s ' ').headD "")) = false :=
      (List.elem_eq_mem _ _).trans (decide_eq_false hmem)
    rw [hm, if_neg (by rw [hc]; decide)]
    exact ⟨iff_of_false (notAllowedMsg_ne_empty _ _) hmem, fun _ => rfl⟩

theorem my_check_space_token_spec_witness :
    pyContains "DROP everything" ';' = false ∧
      ((my_check (ALLOW_METHODS none) "DROP everything" = "" ↔
          pyLower ((pySplit "DROP everything" ' ').headD "") ∈ ALLOW_METHODS none) ∧
        (pyLower ((pySplit "DROP everything" ' ').headD "") ∉ ALLOW_METHODS none →
          my_check (ALLOW_METHODS none) "DROP everything" =
            "【内部安全检查】不允许的操作：" ++
              pyLower ((pySplit "DROP everything" ' ').headD "") ++
              ", 目前允许" ++ pyListRepr (ALLOW_METHODS none))) :=
  ⟨by decide, my_check_space_token_spec (ALLOW_METHODS none) "DROP everything" (by decide)⟩

/-- C3: the claim states every core-level error inside `execute_sql`
(security rejection, per-statement failure, connection failure) is converted
to text and the caller never receives a raised exception.  A connection
failure is indeed converted to text (second conjunct), but a security
rejection is raised as a `ValueError` that no handler catches, so the caller
of `execute_sql` receives a raised exception (first conjunct). -/
theorem execute_sql_rejection_raises_valueerror :
    (execute_sql (ALLOW_METHODS none) (Except.ok demoMutDriver) "DROP x").1 =
      Except.error (PyExc.valueError (notAllowedMsg "drop" (ALLOW_METHODS none))) ∧
    (execute_sql (ALLOW_METHODS none) (Except.error "Access denied") "select 1").1 =
      Except.ok [connFailLine "Access denied"] := by
  exact ⟨by decide, by decide⟩

/-- C4: when every non-empty semicolon-separated segment passes the gate and
executes without driver error, `execute_sql` returns exactly one outcome per
segment, in segment order (the outcome list is the segment list mapped
through `renderStmt`), and a query with no non-empty segment yields the empty
string. -/
theorem execute_sql_one_outcome_per_segment (allow : List String)
    (driver : String → DriverResult) (query : String)
    (h : ∀ s ∈ splitStatements query,
      my_check allow s = "" ∧ ∀ m, driver s ≠ DriverResult.error m) :
    (execute_sql allow (Except.ok driver) query).1 =
      Except.ok [String.intercalate "\n---\n"
        ((splitStatements query).map (renderStmt driver))] ∧
    ((splitStatements query).map (renderStmt driver)).length =
      (splitStatements query).length ∧
    (splitStatements query = [] →
      (execute_sql allow (Except.ok driver) query).1 = Except.ok [""]) := by
  have h1 : ∀ s ∈ splitStatements query, my_check allow s = "" := fun s hs => (h s hs).1
  refine ⟨?_, by simp, ?_⟩
  · simp [execute_sql, runStatements_ok allow driver _ h1, Except.map]
  · intro he
    simp [execute_sql, runStatements_ok allow driver _ h1, he, Except.map,
      runStatements, String.intercalate]

theorem execute_sql_one_outcome_per_segment_witness :
    (execute_sql (ALLOW_METHODS none) (Except.ok demoMutDriver) "update a; update b").1 =
      Except.ok [String.intercalate "\n---\n"
        ((splitStatements "update a; update b").map (renderStmt demoMutDriver))] ∧
    (execute_sql (ALLOW_METHODS none) (Except.ok demoMutDriver) " ; ").1 =
      Except.ok [""] := by
  have hall : ∀ s ∈ splitStatements "update a; update b",
      my_check (ALLOW_METHODS none) s = "" := by decide
  have hall2 : ∀ s ∈ splitStatements " ; ",
      my_check (ALLOW_METHODS none) s = "" := by decide
  refine ⟨(execute_sql_one_outcome_per_segment (ALLOW_METHODS none) demoMutDriver
      "update a; update b" (fun s hs => ⟨hall s hs, fun m hm => nomatch hm⟩)).1, ?_⟩
  exact (execute_sql_one_outcome_per_segment (ALLOW_METHODS none) demoMutDriver " ; "
      (fun s hs => ⟨hall2 s hs, fun m hm => nomatch hm⟩)).2.2 (by decide)

/-- C5: within one call whose statements all pass the gate, the driver event
trace is exactly the per-statement events in order, where a mutation
statement is executed and immediately committed (and its outcome carries the
driver row count), while a result-set statement and a failing statement
produce no commit. -/
theorem execute_sql_commit_discipline (allow : List String)
    (driver : String → DriverResult) (query : String)
    (h : ∀ s ∈ splitStatements query, my_check allow s = "") :
    (execute_sql allow (Except.ok driver) query).2 =
      (splitStatements query).flatMap (eventsFor driver) ∧
    (∀ s n, driver s = DriverResult.mutation n →
      eventsFor driver s = [Event.executed s, Event.committed] ∧
        renderStmt driver s = "查询执行成功。影响行数: " ++ toString n) ∧
    (∀ s cols rows, driver s = DriverResult.resultSet cols rows →
      Event.committed ∉ eventsFor driver s) ∧
    (∀ s m, driver s = DriverResult.error m →
      Event.committed ∉ eventsFor driver s) := by
  refine ⟨?_, ?_, ?_, ?_⟩
  · simp [execute_sql, runStatements_ok allow driver _ h]
  · intro s n hd
    exact ⟨by simp [eventsFor, hd], by simp [renderStmt, hd, mutationLine]⟩
  · intro s cols rows hd
    simp [eventsFor, hd]
  · intro s m hd
    simp [eventsFor, hd]

theorem execute_sql_commit_discipline_witness :
    (execute_sql (ALLOW_METHODS none) (Except.ok demoDriver) "update t; select 1").2 =
      [Event.executed "update t", Event.committed, Event.executed "select 1"] := by
  have h := execute_sql_commit_discipline (ALLOW_METHODS none) demoDriver
      "update t; select 1" (by decide)
  rw [h.1]
  decide

/-- C6: a driver failure on the statement at position k is caught locally and
recorded as the error line carrying the statement text and the error text;
the statements after position k still run, the events of the statements
before position k (their commits included) are unchanged, and no rollback
event ever occurs. -/
theorem execute_sql_statement_failure_isolated (allow : List String)
    (driver : String → DriverResult) (pre post : List String) (s m : String)
    (h : ∀ t ∈ pre ++ s :: post, my_check allow t = "")
    (hd : driver s = DriverResult.error m) :
    runStatements allow driver (pre ++ s :: post) =
      (Except.ok (pre.map (renderStmt driver) ++
        errorLine s m :: post.map (renderStmt driver)),
       pre.flatMap (eventsFor driver) ++
        Event.failed s :: post.flatMap (eventsFor driver)) ∧
    Event.rolledBack ∉ (runStatements allow driver (pre ++ s :: post)).2 := by
  have key := runStatements_ok allow driver (pre ++ s :: post) h
  have hrender : renderStmt driver s = errorLine s m := by simp [renderStmt, hd]
  have hev : eventsFor driver s = [Event.failed s] := by simp [eventsFor, hd]
  constructor
  · rw [key]
    simp [List.map_append, List.flatMap_append, hrender, hev]
  · rw [key]
    simp only [List.flatMap_append, List.flatMap_cons]
    intro hmem
    rcases List.mem_append.mp hmem with h1 | h1
    · rcases List.mem_flatMap.mp h1 with ⟨x, _, hx⟩
      exact rolledBack_not_mem_eventsFor driver x hx
    · rcases List.mem_append.mp h1 with h2 | h2
      · exact rolledBack_not_mem_eventsFor driver s (hev ▸ h2)
      · rcases List.mem_flatMap.mp h2 with ⟨x, _, hx⟩
        exact rolledBack_not_mem_eventsFor driver x hx

theorem execute_sql_statement_failure_isolated_witness :
    runStatements (ALLOW_METHODS none) demoDriver
        ["select 1", "update boom", "update t"] =
      (Except.ok [renderStmt demoDriver "select 1", errorLine "update boom" "boom",
        renderStmt demoDriver "update t"],
       [Event.executed "select 1", Event.failed "update boom",
        Event.executed "update t", Event.committed]) := by
  have h := execute_sql_statement_failure_isolated (ALLOW_METHODS none) demoDriver
      ["select 1"] ["update t"] "update boom" "boom" (by decide) (by decide)
  exact h.1.trans (by decide)

/-- C7: a rendered result set has the comma-joined column names as its first
line and one comma-joined line per row after it, a null cell renders as the
literal token NULL (never the empty field), a non-null cell renders as its
own text, and consecutive outcomes are joined by a separator that is the
line `---` between two newlines. -/
theorem formatResultSet_csv_shape (cols : List String)
    (rows : List (List (Option String))) :
    formatResultSet cols rows =
      String.intercalate "\n"
        (String.intercalate "," cols ::
          rows.map (fun row => String.intercalate "," (row.map renderCell))) ∧
    renderCell none = "NULL" ∧
    renderCell none ≠ "" ∧
    (∀ v : String, renderCell (some v) = v) ∧
    (∀ a b : String, String.intercalate "\n---\n" [a, b] = a ++ "\n---\n" ++ b) ∧
    ("\n---\n" : String) = "\n" ++ "---" ++ "\n" := by
  refine ⟨?_, rfl, by decide, fun v => rfl, fun a b => rfl, by decide⟩
  rw [formatResultSet, formatted_rows_eq_map]

/-- C8: a statement containing an ASCII semicolon anywhere is rejected by
`my_check` with the multiple-statements reason, whatever its leading verb and
whatever the allow-list. -/
theorem my_check_semicolon_always_rejects (allow : List String) (s : String)
    (h : pyContains s ';' = true) :
    my_check allow s = forbidMultiMsg := by
  simp [my_check, h]

theorem my_check_semicolon_always_rejects_witness :
    pyContains "select 1; drop t" ';' = true ∧
      my_check (ALLOW_METHODS none) "select 1; drop t" = forbidMultiMsg :=
  ⟨by decide,
    my_check_semicolon_always_rejects (ALLOW_METHODS none) "select 1; drop t" (by decide)⟩

/-- C9: every statement produced by the splitter is free of the ASCII
semicolon, so inside the `execute_sql` pipeline the semicolon branch of
`my_check` is unreachable and the gate reduces to its verb check. -/
theorem splitStatements_semicolon_unreachable (allow : List String) (query : String) :
    ∀ s ∈ splitStatements query,
      pyContains s ';' = false ∧ my_check allow s = my_verb_check allow s := by
  intro s hs
  have hpieces : ∃ t, t ∈ pySplit query ';' ∧
      (if pyStrip t = "" then none else some (pyStrip t)) = some s := by
    simpa [splitStatements, List.mem_filterMap] using hs
  obtain ⟨t, ht, hts⟩ := hpieces
  have hstrip : pyStrip t = s := by
    by_cases he : pyStrip t = ""
    · simp [he] at hts
    · simpa [he] using hts
  have hmem : ∃ piece ∈ splitOnCharList ';' query.toList, String.mk piece = t := by
    simpa [pySplit, List.mem_map] using ht
  obtain ⟨piece, hp, hpt⟩ := hmem
  have hnosemi : ';' ∉ piece :=
    not_mem_of_mem_splitOnCharList ';' query.toList piece hp
  have htlist : t.toList = piece := by rw [← hpt]; rfl
  have hnot : ';' ∉ s.toList := by
    intro hin
    apply hnosemi
    rw [← htlist]
    have hin2 : ';' ∈ (pyStrip t).toList := by rw [hstrip]; exact hin
    exact mem_pyStrip t ';' hin2
  have hfalse : pyContains s ';' = false := by
    simp only [pyContains]
    exact (List.elem_eq_mem _ _).trans (decide_eq_false hnot)
  exact ⟨hfalse, by simp [my_check, hfalse]⟩

theorem splitStatements_semicolon_unreachable_witness :
    "select a" ∈ splitStatements "select a; drop b" ∧
      pyContains "select a" ';' = false ∧
      my_check (ALLOW_METHODS none) "select a" =
        my_verb_check (ALLOW_METHODS none) "select a" :=
  ⟨by decide,
    splitStatements_semicolon_unreachable (ALLOW_METHODS none) "select a; drop b"
      "select a" (by decide)⟩

/-- C10: the allow-list is the verbatim comma-split of the environment value,
falling back to select,update,show when the variable is unset or empty, with
entries neither trimmed nor lower-cased; with the configured value
`"select, update"` the stored entries are `select` and a space-led `update`,
so the statement `"update t"` is rejected. -/
theorem ALLOW_METHODS_verbatim_split (v : String) (hv : v ≠ "") :
    ALLOW_METHODS (some v) = pySplit v ',' ∧
    ALLOW_METHODS none = ["select", "update", "show"] ∧
    ALLOW_METHODS (some "") = ["select", "update", "show"] ∧
    ALLOW_METHODS (some "select, update") = ["select", " update"] ∧
    my_check (ALLOW_METHODS (some "select, update")) "update t" =
      notAllowedMsg "update" (ALLOW_METHODS (some "select, update")) :=
  ⟨by simp [ALLOW_METHODS, hv], by decide, by decide, by decide, by decide⟩

theorem ALLOW_METHODS_verbatim_split_witness :
    ("a,b" : String) ≠ "" ∧ ALLOW_METHODS (some "a,b") = pySplit "a,b" ',' :=
  ⟨by decide, (ALLOW_METHODS_verbatim_split "a,b" (by decide)).1⟩

end OperateMysql
